import Mathlib

/-!
Verification development for the REST route-generation layer of the
tensei repository (the `Rest` plugin class).

The embedding models, faithfully to the TypeScript source:
  * JavaScript numbers (`JNum`): rationals extended with `NaN` and the two
    infinities, with the arithmetic, comparison and truthiness rules the
    handlers rely on;
  * the query-string parsers `Rest.parseQueryToFindOptions` and the inner
    `decoder` closure of `Rest.parseQueryToWhereOptions`;
  * the page-metadata calculator `Rest.getPageMetaFromFindOptions`;
  * the route table built by `Rest.extendRoutes` and the individual route
    handlers for delete, update and relation fetch, including the fact that
    the delete and update handlers do NOT await `findOne` (so the local
    `entity` variable holds a promise object).

The ORM (`mikro-orm`) and the response formatter are external dependencies
that are not part of this repository; the small parts of their behaviour the
handlers depend on are modelled from the specification and marked as such.
-/

set_option autoImplicit false

/-! ## JavaScript numbers -/

/-- A JavaScript number: `NaN`, the infinities, or a finite value
(modelled as a rational; IEEE rounding is irrelevant to the properties
considered here). -/
inductive JNum where
  | nan
  | inf
  | ninf
  | q (x : ℚ)
deriving DecidableEq, Repr

/-- JavaScript truthiness of a number: `NaN` and `0` are falsy. -/
def JNum.truthy : JNum → Bool
  | .nan => false
  | .inf => true
  | .ninf => true
  | .q x => x ≠ 0

/-- JavaScript addition on numbers. -/
def JNum.add : JNum → JNum → JNum
  | .nan, _ => .nan
  | _, .nan => .nan
  | .inf, .ninf => .nan
  | .ninf, .inf => .nan
  | .inf, _ => .inf
  | _, .inf => .inf
  | .ninf, _ => .ninf
  | _, .ninf => .ninf
  | .q a, .q b => .q (a + b)

/-- JavaScript subtraction on numbers. -/
def JNum.sub : JNum → JNum → JNum
  | .nan, _ => .nan
  | _, .nan => .nan
  | .inf, .inf => .nan
  | .ninf, .ninf => .nan
  | .inf, _ => .inf
  | .ninf, _ => .ninf
  | .q _, .inf => .ninf
  | .q _, .ninf => .inf
  | .q a, .q b => .q (a - b)

/-- JavaScript multiplication on numbers. -/
def JNum.mul : JNum → JNum → JNum
  | .nan, _ => .nan
  | _, .nan => .nan
  | .q a, .q b => .q (a * b)
  | .inf, .q b => if b = 0 then .nan else if 0 < b then .inf else .ninf
  | .q a, .inf => if a = 0 then .nan else if 0 < a then .inf else .ninf
  | .ninf, .q b => if b = 0 then .nan else if 0 < b then .ninf else .inf
  | .q a, .ninf => if a = 0 then .nan else if 0 < a then .ninf else .inf
  | .inf, .inf => .inf
  | .inf, .ninf => .ninf
  | .ninf, .inf => .ninf
  | .ninf, .ninf => .inf

/-- JavaScript division on numbers (division by zero yields an infinity,
`0 / 0` yields `NaN`; the sign of zero is not modelled). -/
def JNum.div : JNum → JNum → JNum
  | .nan, _ => .nan
  | _, .nan => .nan
  | .q a, .q b =>
      if b = 0 then (if a = 0 then .nan else if 0 < a then .inf else .ninf)
      else .q (a / b)
  | .q _, .inf => .q 0
  | .q _, .ninf => .q 0
  | .inf, .q b => if b < 0 then .ninf else .inf
  | .ninf, .q b => if b < 0 then .inf else .ninf
  | .inf, .inf => .nan
  | .inf, .ninf => .nan
  | .ninf, .inf => .nan
  | .ninf, .ninf => .nan

/-- The `Math.ceil` function on JavaScript numbers. -/
def JNum.ceil : JNum → JNum
  | .nan => .nan
  | .inf => .inf
  | .ninf => .ninf
  | .q x => .q (Int.ceil x)

/-- The JavaScript comparison `x >= 1` (false on `NaN`). -/
def JNum.geOne : JNum → Bool
  | .nan => false
  | .inf => true
  | .ninf => false
  | .q x => 1 ≤ x

/-- Coerce the value of a possibly-undefined numeric property into a number,
as JavaScript arithmetic does: `undefined` becomes `NaN`. -/
def jnumOf : Option JNum → JNum
  | some n => n
  | none => .nan

/-! ## Character-list utilities

`String.splitOn` and `String.trim` are defined by well-founded recursion in
core; structurally recursive equivalents on character lists are used here
instead, so that every definition evaluates by `rfl` and `decide`. -/

/-- Structural equivalent of `String.splitOn` for a one-character
separator. -/
def splitOnChar (c : Char) : List Char → List (List Char)
  | [] => [[]]
  | x :: xs =>
      let r := splitOnChar c xs
      if x == c then [] :: r
      else
        match r with
        | [] => [[x]]
        | h :: t => (x :: h) :: t

/-- Structural equivalent of `String.splitOn "where"`: split at each
non-overlapping occurrence of the substring `"where"`, scanning left to
right. -/
def splitOnWhere : List Char → List (List Char)
  | [] => [[]]
  | 'w' :: 'h' :: 'e' :: 'r' :: 'e' :: rest => [] :: splitOnWhere rest
  | c :: cs =>
      match splitOnWhere cs with
      | [] => [[c]]
      | h :: t => (c :: h) :: t

/-- JavaScript whitespace, in the forms query-string values can carry. -/
def isJsSpace (c : Char) : Bool :=
  c == ' ' || c == '\t' || c == '\n' || c == '\r'

/-- Trim whitespace from both ends of a character list. -/
def trimL (l : List Char) : List Char :=
  ((l.dropWhile isJsSpace).reverse.dropWhile isJsSpace).reverse

/-! ## String-to-number conversions -/

/-- Value of a list of decimal digit characters. -/
def digitsVal (cs : List Char) : ℕ :=
  cs.foldl (fun n c => n * 10 + (c.toNat - 48)) 0

/-- All characters are decimal digits. -/
def isDigitL (l : List Char) : Bool :=
  l.all Char.isDigit

/-- Parse an unsigned decimal numeral (`"5"`, `"5.25"`, `".5"`, `"5."`);
`none` stands for `NaN`. -/
def parseDecimalL (l : List Char) : Option ℚ :=
  match splitOnChar '.' l with
  | [i] => if i ≠ [] ∧ isDigitL i then some (digitsVal i) else none
  | [i, f] =>
      if (i ≠ [] ∨ f ≠ []) ∧ isDigitL i ∧ isDigitL f then
        some ((digitsVal i : ℚ) + (digitsVal f : ℚ) / ((10 : ℚ) ^ f.length))
      else none
  | _ => none

/-- The JavaScript `Number(string)` coercion, on the string shapes the query
parser can meet: trimmed decimal numerals with an optional sign, the empty
string (zero), and the `Infinity` forms; anything else is `NaN`. -/
def jsToNumber (s : String) : JNum :=
  let t := trimL s.data
  if t = [] then .q 0
  else if t = "Infinity".data ∨ t = "+Infinity".data then .inf
  else if t = "-Infinity".data then .ninf
  else
    match t with
    | '-' :: rest =>
        (match parseDecimalL rest with
         | some x => .q (-x)
         | none => .nan)
    | '+' :: rest =>
        (match parseDecimalL rest with
         | some x => .q x
         | none => .nan)
    | u =>
        (match parseDecimalL u with
         | some x => .q x
         | none => .nan)

/-- The JavaScript `parseInt(string)` function (base 10): leading whitespace
skipped, optional sign, then the longest leading run of digits; `none`
stands for `NaN`. -/
def jsParseInt (s : String) : Option Int :=
  match trimL s.data with
  | '-' :: rest =>
      (let ds := rest.takeWhile Char.isDigit
       if ds = [] then none else some (-(digitsVal ds : Int)))
  | '+' :: rest =>
      (let ds := rest.takeWhile Char.isDigit
       if ds = [] then none else some ((digitsVal ds : Int)))
  | t =>
      (let ds := t.takeWhile Char.isDigit
       if ds = [] then none else some ((digitsVal ds : Int)))

/-! ## The where-clause decoder -/

/-- Primitive values produced by the where-clause decoder. -/
inductive JsPrim where
  | str (s : String)
  | num (x : ℚ)
  | bool (b : Bool)
  | null
  | undef
  /-- The member of `Object.prototype` named `name`, reached through the
  prototype chain by `keywords[value]` when `value in keywords` hits an
  inherited property (a built-in function such as `toString`, or
  `Object.prototype` itself for `__proto__`). -/
  | inherited (name : String)
deriving DecidableEq, Repr

/-- Does a string match the regular expression `^(\d+|\d*\.\d+)$` used by the
where-clause decoder (a nonempty digit run, or an optional digit run, a dot,
and a nonempty digit run)? -/
def numericStringTest (s : String) : Bool :=
  (s.data ≠ [] && isDigitL s.data) ||
  (match splitOnChar '.' s.data with
   | [i, f] => isDigitL i && f ≠ [] && isDigitL f
   | _ => false)

/-- The value `parseFloat` returns on a string matching the decoder's numeric
regular expression. -/
def parseFloatOfNumeric (s : String) : ℚ :=
  match splitOnChar '.' s.data with
  | [i] => digitsVal i
  | [i, f] => (digitsVal i : ℚ) + (digitsVal f : ℚ) / ((10 : ℚ) ^ f.length)
  | _ => 0

/-- The JavaScript `value.replace(/where/, "")`: remove the first occurrence
of the substring `"where"`, if any. -/
def replaceFirstWhere (s : String) : String :=
  match splitOnWhere s.data with
  | [] => s
  | [x] => ⟨x⟩
  | x :: rest => ⟨x ++ List.intercalate "where".data rest⟩

/-- The property names of `Object.prototype`, which the JavaScript `in`
operator reaches through the prototype chain of the plain object literal
`keywords` (it is created with `Object.prototype` as its prototype). -/
def objectPrototypeKeys : List String :=
  [ "constructor", "hasOwnProperty", "isPrototypeOf", "propertyIsEnumerable"
  , "toLocaleString", "toString", "valueOf", "__proto__"
  , "__defineGetter__", "__defineSetter__", "__lookupGetter__"
  , "__lookupSetter__" ]

/-- The inner `decoder` closure of `Rest.parseQueryToWhereOptions`: a value
matching the numeric regular expression becomes a number via `parseFloat`;
otherwise the first occurrence of the substring `"where"` is removed and
the result is looked up with `value in keywords`. The `in` operator also
walks the prototype chain, so besides the four own keys `"true"`,
`"false"`, `"null"`, `"undefined"` (which yield the corresponding
primitives), any name of an `Object.prototype` member yields that inherited
member; every remaining string is returned as-is. -/
def Rest.whereDecoder (value : String) : JsPrim :=
  if numericStringTest value then .num (parseFloatOfNumeric value)
  else
    let v := replaceFirstWhere value
    if v = "true" then .bool true
    else if v = "false" then .bool false
    else if v = "null" then .null
    else if v = "undefined" then .undef
    else if v ∈ objectPrototypeKeys then .inherited v
    else .str v

/-! ## Resources and find options -/

/-- Metadata of one field of a resource. `reference` is the mikro-orm
cardinality tag of a relation field (`"1:1"`, `"1:m"`, `"m:n"`, `"m:1"`),
or `none` for a scalar field. -/
structure FieldData where
  databaseField : String
  reference : Option String := none
  nullable : Bool := false
  primary : Bool := false
deriving DecidableEq, Repr

/-- The parts of a resource's `data` used by the REST plugin. -/
structure ResourceData where
  slugSingular : String
  slugPlural : String
  pascalCaseName : String
  snakeCaseName : String
  perPageOptions : List ℚ
  fields : List FieldData
deriving DecidableEq, Repr

/-- The query-string parameters the REST layer reads. Each parameter is
`none` when absent from the query string. -/
structure QueryParams where
  page : Option String := none
  per_page : Option String := none
  populate : Option String := none
  fieldsParam : Option String := none
  filtersParam : Option String := none
  sort : Option String := none
deriving DecidableEq, Repr

/-- The find options built by `Rest.parseQueryToFindOptions`. An `Option`
field is `none` when the corresponding property was never assigned. The
`orderBy` list is an insertion-ordered object: later assignments to an
existing key overwrite in place. -/
structure FindOptions where
  limit : Option ℚ := none
  offset : Option JNum := none
  populate : Option (List String) := none
  fieldsSel : Option (List String) := none
  filtersOpt : Option String := none
  orderBy : List (String × Option String) := []
deriving DecidableEq, Repr

/-- Assign `key := val` in an insertion-ordered object: overwrite in place if
the key exists, else append. -/
def objAssign (obj : List (String × Option String)) (key : String)
    (val : Option String) : List (String × Option String) :=
  if obj.any (fun p => p.1 == key) then
    obj.map (fun p => if p.1 == key then (p.1, val) else p)
  else
    obj ++ [(key, val)]

/-- The per-page limit the parser resolves inside the page branch:
`parseInt(query.per_page) || resource.data.perPageOptions[0]` (a `parseInt`
result of `NaN` or `0` is falsy and falls back to the resource's first
per-page option; an absent first option leaves the limit undefined). -/
def parsedLimit (query : QueryParams) (resource : ResourceData) : Option ℚ :=
  match query.per_page with
  | some s =>
      match jsParseInt s with
      | some n => if n = 0 then resource.perPageOptions.head? else some (n : ℚ)
      | none => resource.perPageOptions.head?
  | none => resource.perPageOptions.head?

/-- The pagination statement of the parser: pagination applies only when
`page` is truthy and differs from the sentinel string `"-1"`; then the limit
is `parsedLimit` and the offset is `page >= 1 ? (page - 1) * limit : 0`
under JavaScript numeric coercion. -/
def applyPageOptions (query : QueryParams) (resource : ResourceData)
    (findOptions : FindOptions) : FindOptions :=
  match query.page with
  | some p =>
      if p ≠ "" ∧ p ≠ "-1" then
        let lim : Option ℚ := parsedLimit query resource
        let limJ : JNum := jnumOf (lim.map JNum.q)
        let pj : JNum := jsToNumber p
        { findOptions with
          limit := lim
          offset := some (if pj.geOne then (pj.sub (.q 1)).mul limJ else .q 0) }
      else findOptions
  | none => findOptions

/-- The statement `if (query.populate) findOptions.populate = query.populate.split(",")`. -/
def applyPopulate (query : QueryParams) (findOptions : FindOptions) :
    FindOptions :=
  match query.populate with
  | some s =>
      if s ≠ "" then
        { findOptions with
          populate := some ((splitOnChar ',' s.data).map (fun l => (⟨l⟩ : String))) }
      else findOptions
  | none => findOptions

/-- The statement `if (query.fields) findOptions.fields = query.fields.split(",")`. -/
def applyFieldsSel (query : QueryParams) (findOptions : FindOptions) :
    FindOptions :=
  match query.fieldsParam with
  | some s =>
      if s ≠ "" then
        { findOptions with
          fieldsSel := some ((splitOnChar ',' s.data).map (fun l => (⟨l⟩ : String))) }
      else findOptions
  | none => findOptions

/-- The statement `if (query.filters) findOptions.filters = query.filters`. -/
def applyFilters (query : QueryParams) (findOptions : FindOptions) :
    FindOptions :=
  match query.filtersParam with
  | some s =>
      if s ≠ "" then { findOptions with filtersOpt := some s }
      else findOptions
  | none => findOptions

/-- The statement merging `query.sort` pairs into `findOptions.orderBy`. -/
def applySort (query : QueryParams) (findOptions : FindOptions) :
    FindOptions :=
  match query.sort with
  | some s =>
      if s ≠ "" then
        let sorters := (splitOnChar ',' s.data).map
          (fun sorter => (splitOnChar ':' sorter).map (fun l => (⟨l⟩ : String)))
        { findOptions with
          orderBy := sorters.foldl
            (fun acc parts => objAssign acc (parts.headD "") (parts.get? 1))
            findOptions.orderBy }
      else findOptions
  | none => findOptions

/-- `Rest.parseQueryToFindOptions`: translate query-string parameters into
find options by running the source's five sequential `if` statements (page
and per-page, populate, field selection, filters, sort) over an initially
empty options object. -/
def Rest.parseQueryToFindOptions (query : QueryParams) (resource : ResourceData) :
    FindOptions :=
  applySort query
    (applyFilters query
      (applyFieldsSel query
        (applyPopulate query
          (applyPageOptions query resource {}))))

/-! ## Page metadata -/

/-- The page-metadata envelope returned with list responses. `page` and
`per_page` are `none` when the handler emits JSON `null`. -/
structure PageMeta where
  total : ℚ
  page : Option JNum
  per_page : Option ℚ
  page_count : JNum
deriving DecidableEq, Repr

/-- JavaScript truthiness of a possibly-absent number-valued property. -/
def optTruthy : Option JNum → Bool
  | some n => n.truthy
  | none => false

/-- JavaScript truthiness of a possibly-absent rational-valued property. -/
def optQTruthy : Option ℚ → Bool
  | some x => x ≠ 0
  | none => false

/-- `Rest.getPageMetaFromFindOptions`: derive `{total, page, per_page,
page_count}` from the row count and the find options. `page` is `null`
unless the offset is truthy or (the offset is exactly `0` and the limit is
truthy); `per_page` is the limit when truthy, else `null`; `page_count` is
`Math.ceil(total / limit)` with no guard on the limit being set. -/
def Rest.getPageMetaFromFindOptions (total : ℚ) (findOptions : FindOptions) :
    PageMeta :=
  let limJ : JNum := jnumOf (findOptions.limit.map JNum.q)
  { total := total
    page :=
      if optTruthy findOptions.offset ∨
         (findOptions.offset = some (.q 0) ∧ optQTruthy findOptions.limit) then
        some (((jnumOf findOptions.offset).add (.q 1)).div limJ).ceil
      else none
    per_page := if optQTruthy findOptions.limit then findOptions.limit else none
    page_count := ((JNum.q total).div limJ).ceil }

/-! ## Route metadata -/

/-- The metadata of one generated route: its display name, HTTP method and
path template. -/
structure RouteRecord where
  name : String
  method : String
  path : String
deriving DecidableEq, Repr

/-- `Rest.getApiPath`: prefix a path with the configured API path. -/
def Rest.getApiPath (apiPath : String) (path : String) : String :=
  "/" ++ apiPath ++ "/" ++ path

/-- The route table built by `Rest.extendRoutes`: for each resource, in
source order, the routes pushed are insert one, insert many, fetch many,
fetch one, fetch relations, update one, delete one, with the methods and
path templates of the source. -/
def Rest.extendRoutes (resources : List ResourceData) (apiPath : String) :
    List RouteRecord :=
  resources.flatMap (fun resource =>
    let singular := resource.slugSingular
    let plural := resource.slugPlural
    [ { name := "Insert " ++ singular
        method := "post"
        path := Rest.getApiPath apiPath plural },
      { name := "Insert multiple " ++ plural
        method := "post"
        path := Rest.getApiPath apiPath plural },
      { name := "Fetch multiple " ++ plural
        method := "get"
        path := Rest.getApiPath apiPath plural },
      { name := "Fetch single " ++ singular
        method := "get"
        path := Rest.getApiPath apiPath (plural ++ "/:id") },
      { name := "Fetch " ++ singular ++ " relations"
        method := "get"
        path := Rest.getApiPath apiPath (plural ++ "/:id/:related-resource") },
      { name := "Update single " ++ singular
        method := "put"
        path := Rest.getApiPath apiPath (plural ++ "/:id") },
      { name := "Delete single " ++ singular
        method := "delete"
        path := Rest.getApiPath apiPath (plural ++ "/:id") } ])

/-! ## Entities, the database, and JavaScript values -/

/-- A stored entity: a primary key and the pascal-case model name it
belongs to (its property values live alongside it in the store). -/
structure Entity where
  id : ℕ
  model : String
deriving DecidableEq, Repr

/-- A JavaScript value as the handlers see it. `entityRef` is a reference to
a stored entity by primary key; `promise` is a promise object wrapping the
value it will resolve to (a promise that is never awaited stays in this
form). -/
inductive JsValue where
  | undef
  | null
  | bool (b : Bool)
  | num (n : JNum)
  | str (s : String)
  | entityRef (id : ℕ)
  | arr (elems : List JsValue)
  | promise (val : JsValue)

/-- JavaScript truthiness of a value. Every object — including an array and
a promise — is truthy. -/
def JsValue.truthy : JsValue → Bool
  | .undef => false
  | .null => false
  | .bool b => b
  | .num n => n.truthy
  | .str s => s ≠ ""
  | .entityRef _ => true
  | .arr _ => true
  | .promise _ => true

/-- The entity store the ORM manager reads from: a list of entities with
their property values (relation properties hold either a collection
(`arr`), a single entity reference, or `null`). -/
structure DB where
  entities : List (Entity × List (String × JsValue))

/-- Modelled from the spec: `manager.findOne(modelName, id)` resolves to the
first stored entity of that model with that primary key, or to `null` when
none exists (the missing-entity case is what the not-found branches of the
handlers test for). -/
def DB.findOne (db : DB) (modelName : String) (idParam : ℕ) :
    Option (Entity × List (String × JsValue)) :=
  db.entities.find? (fun e => e.1.model == modelName && e.1.id == idParam)

/-- The JavaScript value an awaited `findOne` call produces: the entity
reference, or `null`. -/
def jsOfFindOne (r : Option (Entity × List (String × JsValue))) : JsValue :=
  match r with
  | some e => .entityRef e.1.id
  | none => .null

/-- Read a property of an entity's property list (`none` is JavaScript
`undefined`). -/
def propLookup (props : List (String × JsValue)) (key : String) :
    Option JsValue :=
  (props.find? (fun p => p.1 == key)).map (fun p => p.2)

/-! ## Responses -/

/-- A structured handler response, mirroring the `express-response-formatter`
helpers the handlers call. -/
inductive Response where
  | ok (body : JsValue)
  | created (body : JsValue)
  | noContent
  | notFound (message : String)
  | badRequest (message : String)

/-- Modelled from the spec: the HTTP status code each formatter helper
produces (`ok` 200, `created` 201, `noContent` 204, `notFound` 404,
`badRequest` 400). -/
def Response.status : Response → ℕ
  | .ok _ => 200
  | .created _ => 201
  | .noContent => 204
  | .notFound _ => 404
  | .badRequest _ => 400

/-! ## Route handlers -/

/-- The `Delete single` route handler. In the source the lookup
`const entity = modelRepository.findOne(params.id)` is NOT awaited, so the
local `entity` variable holds a promise object, not the resolved entity.
The result pairs the response with whether `removeAndFlush` was invoked. -/
def Rest.deleteHandler (db : DB) (modelName : String) (idParam : ℕ) :
    Response × Bool :=
  let entity : JsValue := .promise (jsOfFindOne (db.findOne modelName idParam))
  if entity.truthy = false then
    (.notFound ("Could not find resourceName with ID of " ++ toString idParam),
     false)
  else
    (.noContent, true)

/-- The `Update single` route handler. In the source the lookup
`const entity = manager.findOne(...)` is NOT awaited, so the local `entity`
variable holds a promise object. `manager.assign(entity, body)` mutates that
object in place (not observable in this value model) and the handler then
persists it and responds `ok(entity)`. The result pairs the response with
whether the assign-and-persist sequence ran. -/
def Rest.updateHandler (db : DB) (modelName : String) (snakeCaseName : String)
    (idParam : ℕ) : Response × Bool :=
  let entity : JsValue := .promise (jsOfFindOne (db.findOne modelName idParam))
  if entity.truthy = false then
    (.notFound ("Could not find " ++ snakeCaseName ++ " with ID of " ++
       toString idParam),
     false)
  else
    (.ok entity, true)

/-- The relation field of a resource with the given property name, if any. -/
def ResourceData.relationField (resource : ResourceData) (name : String) :
    Option FieldData :=
  resource.fields.find? (fun f => f.databaseField == name && f.reference.isSome)

/-- Outcome of a `manager.populate` call. -/
inductive PopulateResult where
  | ok
  | validationError
  | otherError
deriving DecidableEq, Repr

/-- Modelled from the spec: `manager.populate(entity, relationName, where)`
(mikro-orm, not under src/) succeeds when the named property is a relation
of the entity's model; when the name is not a valid relation it throws a
`ValidationError`; calling it on a missing (null) entity fails with an error
that is not a `ValidationError`. -/
def managerPopulate (entity : Option (Entity × List (String × JsValue)))
    (resource : ResourceData) (relationName : String) : PopulateResult :=
  match entity with
  | none => .otherError
  | some _ =>
      if (resource.relationField relationName).isSome then .ok
      else .validationError

/-- The `Fetch relations` route handler: await `findOne`, try to populate
the named relation, and return `entity?.[related-resource]`; a
`ValidationError` from populate becomes not-found, any other error becomes
bad-request. -/
def Rest.fetchRelationsHandler (db : DB) (resource : ResourceData)
    (idParam : ℕ) (relatedResource : String) : Response :=
  let entity := db.findOne resource.pascalCaseName idParam
  match managerPopulate entity resource relatedResource with
  | .validationError =>
      .notFound ("The " ++ resource.pascalCaseName ++
        " model does not have a \x27" ++ relatedResource ++ "\x27 property")
  | .otherError => .badRequest "The request was not understood."
  | .ok =>
      .ok (match entity with
           | some e => (propLookup e.2 relatedResource).getD .undef
           | none => .undef)

/-! ## Shape of relation properties -/

/-- Does this field have to-many cardinality (one-to-many `"1:m"` or
many-to-many `"m:n"`)? Otherwise a relation field is to-one (`"1:1"` or
`"m:1"`). -/
def FieldData.toMany (f : FieldData) : Bool :=
  f.reference == some "1:m" || f.reference == some "m:n"

/-- Modelled from the spec: in the ORM data model the value of a relation
property is shaped by the field's cardinality — a collection (array) for a
to-many field, a single entity reference or `null` for a to-one field. -/
def shapeMatches (f : FieldData) (v : JsValue) : Bool :=
  if f.toMany then
    match v with
    | .arr _ => true
    | _ => false
  else
    match v with
    | .null => true
    | .entityRef _ => true
    | _ => false

/-- Every relation field of the resource is present among the entity's
properties with the shape its cardinality dictates. -/
def entityWellShaped (resource : ResourceData)
    (props : List (String × JsValue)) : Bool :=
  resource.fields.all (fun f =>
    !f.reference.isSome ||
      (match propLookup props f.databaseField with
       | some v => shapeMatches f v
       | none => false))

/-- Every stored entity of the resource's model is well shaped. -/
def DB.wellFormed (db : DB) (resource : ResourceData) : Bool :=
  db.entities.all (fun e =>
    e.1.model != resource.pascalCaseName || entityWellShaped resource e.2)

/-! ## Sample data for witnesses -/

/-- A sample resource mirroring the repository's example `Post` resource. -/
def postResource : ResourceData :=
  { slugSingular := "post"
    slugPlural := "posts"
    pascalCaseName := "Post"
    snakeCaseName := "post"
    perPageOptions := [25, 50, 100]
    fields :=
      [ { databaseField := "id", primary := true }
      , { databaseField := "title" }
      , { databaseField := "user", reference := some "m:1" }
      , { databaseField := "tags", reference := some "m:n" } ] }

/-- A sample resource mirroring the repository's example `Comment` resource
(`belongsTo Post`, `hasOne Editor`, `hasMany Reaction`). -/
def commentResource : ResourceData :=
  { slugSingular := "comment"
    slugPlural := "comments"
    pascalCaseName := "Comment"
    snakeCaseName := "comment"
    perPageOptions := [10]
    fields :=
      [ { databaseField := "id", primary := true }
      , { databaseField := "title" }
      , { databaseField := "post", reference := some "m:1" }
      , { databaseField := "editor", reference := some "1:1" }
      , { databaseField := "reactions", reference := some "1:m" } ] }

/-- Property values of the sample comment entity. -/
def commentProps : List (String × JsValue) :=
  [ ("title", .str "hi")
  , ("post", .entityRef 2)
  , ("editor", .null)
  , ("reactions", .arr [.entityRef 5, .entityRef 6]) ]

/-- A store holding one comment entity. -/
def commentDb : DB :=
  { entities := [(⟨1, "Comment"⟩, commentProps)] }

/-- The empty entity store. -/
def emptyDb : DB := { entities := [] }

/-! ## Claim theorems -/

/-- C1: the claim says a DELETE on a missing id responds 404 and never
invokes `removeAndFlush`. The code is wrong: `findOne` is not awaited, so
the guard tests a promise object (always truthy), the not-found branch is
dead code, and `removeAndFlush` runs. Evaluated at the failing input — an
empty store — the handler responds 204 no-content and invokes the remove
operation. -/
theorem deleteHandler_missing_entity_removes :
    Rest.deleteHandler emptyDb "Post" 1 = (Response.noContent, true) := rfl

/-- C2: the claim says a PUT on a missing id signals 404 and persists
nothing. The code is wrong: `findOne` is not awaited, the guard tests a
promise object (always truthy), so the not-found branch is dead code and
the merge-and-persist sequence runs, responding 200 with the promise
object. Evaluated at the failing input — an empty store. -/
theorem updateHandler_missing_entity_persists :
    Rest.updateHandler emptyDb "Post" "post" 1 =
      (Response.ok (.promise .null), true) := rfl

/-- C4 counterexample: with one declared resource the generated route table
does not have six entries (it has seven). -/
theorem extendRoutes_count_counterexample :
    (Rest.extendRoutes [postResource] "api").length ≠ 6 := by decide

/-- C4 (amended): for every list of declared resources, the route generator
synthesizes exactly seven routes per resource. -/
theorem extendRoutes_count_seven (resources : List ResourceData)
    (apiPath : String) :
    (Rest.extendRoutes resources apiPath).length = 7 * resources.length := by
  induction resources with
  | nil => rfl
  | cons r rs ih =>
      simp only [Rest.extendRoutes, List.flatMap_cons, List.length_append,
        List.length_cons, List.length_nil] at ih ⊢
      omega

/-- C9: the generated insert-one route and the insert-many route of any
resource carry the same HTTP method (`post`) and exactly the same path
`/{apiPath}/{plural}`, so the routing layer cannot distinguish them. -/
theorem insert_routes_indistinguishable (r : ResourceData) (apiPath : String) :
    ∃ r0 r1 tail,
      Rest.extendRoutes [r] apiPath = r0 :: r1 :: tail ∧
      r0.method = "post" ∧ r1.method = "post" ∧
      r0.path = "/" ++ apiPath ++ "/" ++ r.slugPlural ∧
      r1.path = r0.path := by
  exact ⟨_, _, _, rfl, rfl, rfl, rfl, rfl⟩

/-- C3 counterexample: three where-clause values that are neither numeric
nor among the claim's listed literals and that do NOT pass through
unchanged: `"somewhere"` loses its `"where"` substring, `"false"` becomes a
boolean, and `"toString"` hits an inherited `Object.prototype` property
through the prototype chain of `value in keywords`, so the decoder returns
that inherited function instead of the string. -/
theorem whereDecoder_unchanged_counterexample :
    Rest.whereDecoder "somewhere" = JsPrim.str "some" ∧
    Rest.whereDecoder "false" = JsPrim.bool false ∧
    Rest.whereDecoder "toString" = JsPrim.inherited "toString" := by
  exact ⟨rfl, rfl, rfl⟩

/-- C3 (amended): the where-clause decoder maps a numeric-looking string
such as `"5"` to the number `5`, and after removing the first occurrence of
the substring `"where"` it maps the literals `"true"`, `"false"`, `"null"`,
`"undefined"` to the corresponding primitives; a value that then names an
inherited `Object.prototype` member (`"toString"`, `"constructor"`,
`"__proto__"`, ...) yields that inherited member (the `in` check walks the
prototype chain); every other string value passes through with only that
first `"where"` substring removed. -/
theorem whereDecoder_mapping :
    Rest.whereDecoder "5" = JsPrim.num 5 ∧
    Rest.whereDecoder "true" = JsPrim.bool true ∧
    Rest.whereDecoder "false" = JsPrim.bool false ∧
    Rest.whereDecoder "null" = JsPrim.null ∧
    Rest.whereDecoder "undefined" = JsPrim.undef ∧
    (∀ s : String, numericStringTest s = false →
      replaceFirstWhere s ∈ objectPrototypeKeys →
      Rest.whereDecoder s = JsPrim.inherited (replaceFirstWhere s)) ∧
    (∀ s : String, numericStringTest s = false →
      replaceFirstWhere s ≠ "true" → replaceFirstWhere s ≠ "false" →
      replaceFirstWhere s ≠ "null" → replaceFirstWhere s ≠ "undefined" →
      replaceFirstWhere s ∉ objectPrototypeKeys →
      Rest.whereDecoder s = JsPrim.str (replaceFirstWhere s)) := by
  refine ⟨rfl, rfl, rfl, rfl, rfl, ?_, ?_⟩
  · intro s hnum hmem
    have h1 : replaceFirstWhere s ≠ "true" := by
      intro he; rw [he] at hmem; simp [objectPrototypeKeys] at hmem
    have h2 : replaceFirstWhere s ≠ "false" := by
      intro he; rw [he] at hmem; simp [objectPrototypeKeys] at hmem
    have h3 : replaceFirstWhere s ≠ "null" := by
      intro he; rw [he] at hmem; simp [objectPrototypeKeys] at hmem
    have h4 : replaceFirstWhere s ≠ "undefined" := by
      intro he; rw [he] at hmem; simp [objectPrototypeKeys] at hmem
    simp [Rest.whereDecoder, hnum, h1, h2, h3, h4, hmem]
  · intro s hnum h1 h2 h3 h4 h5
    simp [Rest.whereDecoder, hnum, h1, h2, h3, h4, h5]

/-- C3 witness: a concrete non-numeric value naming no keyword and no
`Object.prototype` member, without the `"where"` substring, passes through
unchanged; a concrete `Object.prototype` name yields the inherited
member. -/
theorem whereDecoder_mapping_witness :
    Rest.whereDecoder "hello" = JsPrim.str "hello" ∧
    Rest.whereDecoder "valueOf" = JsPrim.inherited "valueOf" :=
  ⟨whereDecoder_mapping.2.2.2.2.2.2 "hello" (by decide) (by decide)
     (by decide) (by decide) (by decide) (by decide),
   whereDecoder_mapping.2.2.2.2.2.1 "valueOf" (by decide) (by decide)⟩

/-- Helper: the populate statement never touches `limit` or `offset`. -/
theorem applyPopulate_pagination (query : QueryParams) (fo : FindOptions) :
    (applyPopulate query fo).limit = fo.limit ∧
    (applyPopulate query fo).offset = fo.offset := by
  unfold applyPopulate
  (repeat' split) <;> exact ⟨rfl, rfl⟩

/-- Helper: the field-selection statement never touches `limit` or
`offset`. -/
theorem applyFieldsSel_pagination (query : QueryParams) (fo : FindOptions) :
    (applyFieldsSel query fo).limit = fo.limit ∧
    (applyFieldsSel query fo).offset = fo.offset := by
  unfold applyFieldsSel
  (repeat' split) <;> exact ⟨rfl, rfl⟩

/-- Helper: the filters statement never touches `limit` or `offset`. -/
theorem applyFilters_pagination (query : QueryParams) (fo : FindOptions) :
    (applyFilters query fo).limit = fo.limit ∧
    (applyFilters query fo).offset = fo.offset := by
  unfold applyFilters
  (repeat' split) <;> exact ⟨rfl, rfl⟩

/-- Helper: the sort statement never touches `limit` or `offset`. -/
theorem applySort_pagination (query : QueryParams) (fo : FindOptions) :
    (applySort query fo).limit = fo.limit ∧
    (applySort query fo).offset = fo.offset := by
  unfold applySort
  (repeat' split) <;> exact ⟨rfl, rfl⟩

/-- Helper: the parser's `limit` and `offset` are exactly those set by the
pagination statement. -/
theorem parse_pagination_eq (query : QueryParams) (resource : ResourceData) :
    (Rest.parseQueryToFindOptions query resource).limit =
      (applyPageOptions query resource {}).limit ∧
    (Rest.parseQueryToFindOptions query resource).offset =
      (applyPageOptions query resource {}).offset := by
  unfold Rest.parseQueryToFindOptions
  constructor
  · rw [(applySort_pagination _ _).1, (applyFilters_pagination _ _).1,
      (applyFieldsSel_pagination _ _).1, (applyPopulate_pagination _ _).1]
  · rw [(applySort_pagination _ _).2, (applyFilters_pagination _ _).2,
      (applyFieldsSel_pagination _ _).2, (applyPopulate_pagination _ _).2]

/-- Helper: when the page parameter is absent, empty, or the sentinel
`"-1"`, the pagination statement does nothing. -/
theorem applyPageOptions_skip (query : QueryParams) (resource : ResourceData)
    (fo : FindOptions)
    (h : query.page = none ∨ query.page = some "-1" ∨ query.page = some "") :
    applyPageOptions query resource fo = fo := by
  unfold applyPageOptions
  rcases h with h | h | h <;> simp [h]

/-- Helper: when the page parameter is a truthy string other than `"-1"`,
the pagination statement assigns `limit := parsedLimit` and
`offset := page >= 1 ? (page - 1) * limit : 0` under JavaScript numeric
coercion. -/
theorem applyPageOptions_taken (query : QueryParams) (resource : ResourceData)
    (fo : FindOptions) (p : String)
    (hp : query.page = some p) (h1 : p ≠ "") (h2 : p ≠ "-1") :
    applyPageOptions query resource fo =
      { fo with
        limit := parsedLimit query resource
        offset := some (if (jsToNumber p).geOne
                        then ((jsToNumber p).sub (JNum.q 1)).mul
                               (jnumOf ((parsedLimit query resource).map JNum.q))
                        else JNum.q 0) } := by
  unfold applyPageOptions
  simp [hp, h1, h2]

/-- Helper: when the page parameter is absent, empty, or the sentinel
`"-1"`, the parser assigns neither `limit` nor `offset`. -/
theorem parse_no_page (query : QueryParams) (resource : ResourceData)
    (h : query.page = none ∨ query.page = some "-1" ∨ query.page = some "") :
    (Rest.parseQueryToFindOptions query resource).limit = none ∧
    (Rest.parseQueryToFindOptions query resource).offset = none := by
  obtain ⟨hl, ho⟩ := parse_pagination_eq query resource
  rw [hl, ho, applyPageOptions_skip query resource {} h]
  exact ⟨rfl, rfl⟩

/-- Helper: when the page parameter is a truthy string other than `"-1"`,
the parser's `limit` is `parsedLimit` and its `offset` is
`page >= 1 ? (page - 1) * limit : 0`. -/
theorem parse_page_branch (query : QueryParams) (resource : ResourceData)
    (p : String) (hp : query.page = some p) (h1 : p ≠ "") (h2 : p ≠ "-1") :
    (Rest.parseQueryToFindOptions query resource).limit =
      parsedLimit query resource ∧
    (Rest.parseQueryToFindOptions query resource).offset =
      some (if (jsToNumber p).geOne
            then ((jsToNumber p).sub (JNum.q 1)).mul
                   (jnumOf ((parsedLimit query resource).map JNum.q))
            else JNum.q 0) := by
  obtain ⟨hl, ho⟩ := parse_pagination_eq query resource
  rw [hl, ho, applyPageOptions_taken query resource {} p hp h1 h2]
  exact ⟨rfl, rfl⟩

/-- C10: when the page parameter is absent or equals the string `"-1"`, the
parser sets neither `limit` nor `offset`, whatever the per_page parameter
is — per_page on its own never activates pagination. -/
theorem page_absent_no_pagination (query : QueryParams)
    (resource : ResourceData)
    (h : query.page = none ∨ query.page = some "-1") :
    (Rest.parseQueryToFindOptions query resource).limit = none ∧
    (Rest.parseQueryToFindOptions query resource).offset = none :=
  parse_no_page query resource (h.elim Or.inl (fun hh => Or.inr (Or.inl hh)))

/-- C10 witness: a concrete query with the sentinel page `"-1"` and
per_page `"10"` gets no limit and no offset. -/
theorem page_absent_no_pagination_witness :
    (Rest.parseQueryToFindOptions
        { page := some "-1", per_page := some "10" } postResource).limit = none ∧
    (Rest.parseQueryToFindOptions
        { page := some "-1", per_page := some "10" } postResource).offset = none :=
  page_absent_no_pagination
    { page := some "-1", per_page := some "10" } postResource (Or.inr rfl)

/-- C8: for any list request made without a page parameter, the metadata
calculator returns `page = null` and `per_page = null`, but its unguarded
division `Math.ceil(total / findOptions.limit)` makes `page_count` `NaN`
instead of a valid number. -/
theorem pageMeta_unguarded_nan (query : QueryParams) (resource : ResourceData)
    (total : ℚ) (h : query.page = none) :
    (Rest.getPageMetaFromFindOptions total
        (Rest.parseQueryToFindOptions query resource)).page = none ∧
    (Rest.getPageMetaFromFindOptions total
        (Rest.parseQueryToFindOptions query resource)).per_page = none ∧
    (Rest.getPageMetaFromFindOptions total
        (Rest.parseQueryToFindOptions query resource)).page_count = JNum.nan := by
  obtain ⟨hl, ho⟩ := parse_no_page query resource (Or.inl h)
  unfold Rest.getPageMetaFromFindOptions
  rw [hl, ho]
  refine ⟨?_, ?_, ?_⟩ <;> simp [optTruthy, optQTruthy, jnumOf, JNum.div, JNum.ceil]

/-- C8 witness: a request with per_page but no page, over 25 total rows,
yields null page, null per_page, and a `NaN` page_count. -/
theorem pageMeta_unguarded_nan_witness :
    (Rest.getPageMetaFromFindOptions 25
        (Rest.parseQueryToFindOptions { per_page := some "10" } postResource)).page = none ∧
    (Rest.getPageMetaFromFindOptions 25
        (Rest.parseQueryToFindOptions { per_page := some "10" } postResource)).per_page = none ∧
    (Rest.getPageMetaFromFindOptions 25
        (Rest.parseQueryToFindOptions { per_page := some "10" } postResource)).page_count = JNum.nan :=
  pageMeta_unguarded_nan { per_page := some "10" } postResource 25 rfl

/-- C5: pagination arithmetic. With a page parameter whose numeric value
`pv` is at least 1 and a resolved limit `l`, the parser's offset is
`(pv - 1) * l`; with `pv < 1` the offset is `0`; and for every find-options
value with limit `l > 0` and total `≥ 0`, the metadata's `page_count` is
`ceil(total / l)`. -/
theorem pagination_arithmetic :
    (∀ (query : QueryParams) (resource : ResourceData) (p : String) (pv l : ℚ),
       query.page = some p → jsToNumber p = JNum.q pv → 1 ≤ pv →
       (Rest.parseQueryToFindOptions query resource).limit = some l →
       (Rest.parseQueryToFindOptions query resource).offset =
         some (JNum.q ((pv - 1) * l))) ∧
    (∀ (query : QueryParams) (resource : ResourceData) (p : String) (pv : ℚ),
       query.page = some p → p ≠ "" → p ≠ "-1" →
       jsToNumber p = JNum.q pv → pv < 1 →
       (Rest.parseQueryToFindOptions query resource).offset = some (JNum.q 0)) ∧
    (∀ (findOptions : FindOptions) (total l : ℚ),
       findOptions.limit = some l → 0 < l → 0 ≤ total →
       (Rest.getPageMetaFromFindOptions total findOptions).page_count =
         JNum.q (Int.ceil (total / l))) := by
  refine ⟨?_, ?_, ?_⟩
  · intro query resource p pv l hp hpv hge hlim
    have h1 : p ≠ "" := by
      intro he
      subst he
      have h0 : (JNum.q 0 : JNum) = JNum.q pv := hpv
      have : (0 : ℚ) = pv := JNum.q.inj h0
      linarith
    have h2 : p ≠ "-1" := by
      intro he
      subst he
      have h0 : (JNum.q (-1) : JNum) = JNum.q pv := hpv
      have : (-1 : ℚ) = pv := JNum.q.inj h0
      linarith
    obtain ⟨hl, ho⟩ := parse_page_branch query resource p hp h1 h2
    rw [hl] at hlim
    rw [hlim, hpv] at ho
    rw [ho]
    simp [JNum.geOne, hge, JNum.sub, JNum.mul, jnumOf]
  · intro query resource p pv hp h1 h2 hpv hlt
    obtain ⟨hl, ho⟩ := parse_page_branch query resource p hp h1 h2
    rw [hpv] at ho
    rw [ho]
    simp [JNum.geOne, not_le.mpr hlt]
  · intro findOptions total l hl hpos htot
    unfold Rest.getPageMetaFromFindOptions
    rw [hl]
    simp [jnumOf, JNum.div, JNum.ceil, ne_of_gt hpos]

/-- C5 witness: the spec's example — page 2, per_page 10, 25 total rows —
gives offset 10 and page_count 3. -/
theorem pagination_arithmetic_witness :
    (Rest.parseQueryToFindOptions
        { page := some "2", per_page := some "10" } postResource).offset =
      some (JNum.q 10) ∧
    (Rest.getPageMetaFromFindOptions 25
        (Rest.parseQueryToFindOptions
          { page := some "2", per_page := some "10" } postResource)).page_count =
      JNum.q 3 := by
  constructor
  · have h := pagination_arithmetic.1
      { page := some "2", per_page := some "10" } postResource "2" 2 10
      rfl rfl (by norm_num) rfl
    rw [h]
    norm_num
  · have h := pagination_arithmetic.2.2
      (Rest.parseQueryToFindOptions
        { page := some "2", per_page := some "10" } postResource) 25 10
      rfl (by norm_num) (by norm_num)
    rw [h]
    norm_num
    have hc : (⌈(5 : ℚ) / 2⌉ : ℤ) = 3 := by
      rw [Int.ceil_eq_iff]
      constructor <;> norm_num
    rw [hc]
    norm_num

/-- C6: for every stored entity and relation name resolving to a relation
field of the resource, the relation-fetch endpoint returns the field's
value, which — by the shape the field metadata dictates — is an array for
one-to-many and many-to-many cardinality, and a single entity or null for
one-to-one and many-to-one cardinality. -/
theorem fetchRelations_shape (db : DB) (resource : ResourceData)
    (idParam : ℕ) (rel : String) (f : FieldData)
    (e : Entity × List (String × JsValue))
    (hwf : db.wellFormed resource = true)
    (hfind : db.findOne resource.pascalCaseName idParam = some e)
    (hf : resource.relationField rel = some f) :
    ∃ v, Rest.fetchRelationsHandler db resource idParam rel = Response.ok v ∧
      (f.toMany = true → ∃ elems, v = JsValue.arr elems) ∧
      (f.toMany = false → v = JsValue.null ∨ ∃ j, v = JsValue.entityRef j) := by
  have hmem : e ∈ db.entities := List.mem_of_find?_eq_some hfind
  have hpred := List.find?_some hfind
  simp only [Bool.and_eq_true, beq_iff_eq] at hpred
  obtain ⟨hmodel, hid⟩ := hpred
  have hfmem : f ∈ resource.fields := List.mem_of_find?_eq_some hf
  have hfpred := List.find?_some hf
  simp only [Bool.and_eq_true, beq_iff_eq] at hfpred
  obtain ⟨hfname, hfref⟩ := hfpred
  have hws : entityWellShaped resource e.2 = true := by
    have hall := List.all_eq_true.mp hwf e hmem
    simp only [Bool.or_eq_true, bne_iff_ne, ne_eq] at hall
    rcases hall with hne | hok
    · exact absurd hmodel hne
    · exact hok
  have hfield := List.all_eq_true.mp hws f hfmem
  rw [hfref] at hfield
  simp only [Bool.not_true, Bool.false_or] at hfield
  rcases hpl : propLookup e.2 f.databaseField with _ | v
  · rw [hpl] at hfield
    exact absurd hfield (by simp)
  · rw [hpl] at hfield
    rw [hfname] at hpl
    refine ⟨v, ?_, ?_, ?_⟩
    · unfold Rest.fetchRelationsHandler managerPopulate
      rw [hfind, hf]
      simp [hpl]
    · intro ht
      unfold shapeMatches at hfield
      rw [ht] at hfield
      simp only [if_true] at hfield
      cases v <;> simp_all
    · intro ht
      unfold shapeMatches at hfield
      rw [ht] at hfield
      simp only [Bool.false_eq_true, if_false] at hfield
      cases v <;> simp_all

/-- C6 witness: fetching the to-many relation `reactions` of the sample
comment yields an array. -/
theorem fetchRelations_shape_witness :
    ∃ v, Rest.fetchRelationsHandler commentDb commentResource 1 "reactions" =
        Response.ok v ∧
      (FieldData.toMany
          { databaseField := "reactions", reference := some "1:m" } = true →
        ∃ elems, v = JsValue.arr elems) ∧
      (FieldData.toMany
          { databaseField := "reactions", reference := some "1:m" } = false →
        v = JsValue.null ∨ ∃ j, v = JsValue.entityRef j) :=
  fetchRelations_shape commentDb commentResource 1 "reactions"
    { databaseField := "reactions", reference := some "1:m" }
    (⟨1, "Comment"⟩, commentProps) rfl rfl rfl

/-- C7: for every relation-fetch request, a missing entity makes the lookup
or population fail with a non-validation error, so the handler responds
400; with the entity present, an invalid relation name raises the ORM's
validation error and the handler responds 404 not-found, while a valid
relation name responds 200 with the related data. -/
theorem fetchRelations_status (db : DB) (resource : ResourceData)
    (idParam : ℕ) (rel : String) :
    (db.findOne resource.pascalCaseName idParam = none →
       (Rest.fetchRelationsHandler db resource idParam rel).status = 400) ∧
    (∀ e, db.findOne resource.pascalCaseName idParam = some e →
       resource.relationField rel = none →
       (Rest.fetchRelationsHandler db resource idParam rel).status = 404) ∧
    (∀ e, db.findOne resource.pascalCaseName idParam = some e →
       (resource.relationField rel).isSome = true →
       (Rest.fetchRelationsHandler db resource idParam rel).status = 200) := by
  refine ⟨?_, ?_, ?_⟩
  · intro h
    unfold Rest.fetchRelationsHandler managerPopulate
    rw [h]
    rfl
  · intro e he hrel
    unfold Rest.fetchRelationsHandler managerPopulate
    rw [he, hrel]
    rfl
  · intro e he hrel
    unfold Rest.fetchRelationsHandler managerPopulate
    rw [he]
    simp only [hrel, if_true]
    rfl

/-- C7 witness: with the sample store, a missing entity gives 400, an
invalid relation name gives 404, and a valid relation gives 200. -/
theorem fetchRelations_status_witness :
    (Rest.fetchRelationsHandler emptyDb commentResource 1 "reactions").status = 400 ∧
    (Rest.fetchRelationsHandler commentDb commentResource 1 "nope").status = 404 ∧
    (Rest.fetchRelationsHandler commentDb commentResource 1 "post").status = 200 :=
  ⟨(fetchRelations_status emptyDb commentResource 1 "reactions").1 rfl,
   (fetchRelations_status commentDb commentResource 1 "nope").2.1
     (⟨1, "Comment"⟩, commentProps) rfl rfl,
   (fetchRelations_status commentDb commentResource 1 "post").2.2
     (⟨1, "Comment"⟩, commentProps) rfl rfl⟩
